import Mathlib

/-!
Verification development for the breitbandmessung speedtest-to-MQTT service.

The Rust source is shallowly embedded: `f64` measurement values become `ℚ`
(ideal arithmetic), fallible calls become `Except`, the external speedtest
engine and the MQTT broker become explicit oracles, and the three long-running
tokio tasks of `main` become a step function on an explicit system state driven
by an interleaving schedule of directives.

Module map:
* `src/main.rs`   — `ServiceError`, `TestResults`, `perform_all_tests`,
  `perform_download_test`, `perform_upload_test`, the three spawned tasks
  (`speed_test_task`, `mqtt_publish_task`, `mqtt_eventloop_task`) and the
  capacity-1 mpsc channel wiring.
* `src/tests.rs`  — a duplicate of the probe/aggregator functions (identical
  flattening logic; the embedding below covers both).
* `src/models.rs` — `SpeedTestResult`, `SpeedTestResult::new`, `MqttMessage`,
  and `From<SpeedTestResult> for Vec<MqttMessage>`.
* `src/mqtt.rs`   — `publish_discovery_message` with its per-descriptor
  3-attempt retry loop.
-/

namespace Breitbandmessung

/-- Embeds the `ServiceError` enum of `src/main.rs` (which extends the one in
`src/errors.rs`). `SpeedTest` carries the wrapped `SpeedTestError` cause as an
abstract code; `MqttClientError` is the variant `src/mqtt.rs` refers to, its
`ClientError` cause likewise abstracted. -/
inductive ServiceError where
  | ConfigError (msg : String)
  | ServerListError (msg : String)
  | LatencyError (msg : String)
  | DownloadTestError (msg : String)
  | UploadTestError (msg : String)
  | TaskJoinError
  | SpeedTest (cause : Nat)
  | MqttClientError
deriving Repr, DecidableEq

/-- Embeds the `TestResults` struct of `src/main.rs` (the per-cycle Snapshot):
three `f64` fields and nothing else — in particular no timestamp field. -/
structure TestResults where
  download : ℚ
  upload : ℚ
  ping : ℚ
deriving Repr, DecidableEq

/-- Embeds `download.map_err(|_| ServiceError::TaskJoinError)??` from
`perform_all_tests` (`src/main.rs`, `src/tests.rs`): a `JoinError` (modelled as
`Except Unit _` with the join error's content discarded, as the source does)
becomes `ServiceError::TaskJoinError`, and an inner probe error propagates. -/
def flattenTask (r : Except Unit (Except ServiceError ℚ)) : Except ServiceError ℚ :=
  match r with
  | .error _ => .error ServiceError.TaskJoinError
  | .ok inner => inner

/-- Decides whether a joined task outcome is a fully successful probe
(`Ok(Ok(_))` in the source). -/
def okOk (r : Except Unit (Except ServiceError ℚ)) : Bool :=
  match r with
  | .ok (.ok _) => true
  | _ => false

/-- Embeds `perform_all_tests` (`src/main.rs:130-147`, identical in
`src/tests.rs:7-24`). The three probe tasks run concurrently via
`tokio::join!`; all three joined outcomes are available here as inputs, and are
then flattened in textual order download, upload, ping, each `??` propagating
the first error; only when all three succeed is a `TestResults` built. -/
def perform_all_tests (download upload ping : Except Unit (Except ServiceError ℚ)) :
    Except ServiceError TestResults := do
  let d ← flattenTask download
  let u ← flattenTask upload
  let p ← flattenTask ping
  pure ⟨d, u, p⟩

/-- Oracle for the external `speedtest_rs` engine boundary. Each field is the
outcome of the corresponding engine call (`SpeedTestError` causes abstracted to
codes); the engine is treated as deterministic within one probe, matching the
sequential call chain inside each `spawn_blocking` closure. `getBestServer`
carries the best server's latency in seconds; measurement fields carry the
measurement's `bps_f64()` value. -/
structure EngineOracle where
  getConfiguration : Except Nat Unit
  getServerList : Except Nat Unit
  getBestServer : Except Nat ℚ
  downloadMeasurementBps : Except Nat ℚ
  uploadMeasurementBps : Except Nat ℚ
deriving Repr

/-- Embeds the `?` conversion `From<SpeedTestError> for ServiceError`
(`src/main.rs:39-43`): an engine error becomes `ServiceError::SpeedTest`. -/
def liftSpeedTest {α : Type} (r : Except Nat α) : Except ServiceError α :=
  match r with
  | .ok a => .ok a
  | .error c => .error (ServiceError.SpeedTest c)

/-- Embeds the `spawn_blocking` closure of `perform_download_test`
(`src/main.rs:150-160`): fetch configuration, server list and best server,
run the download, and return `bps_f64() / 1_000_000.0` (Mbps). -/
def downloadClosure (e : EngineOracle) : Except ServiceError ℚ := do
  let _config ← liftSpeedTest e.getConfiguration
  let _servers ← liftSpeedTest e.getServerList
  let _best ← liftSpeedTest e.getBestServer
  let m ← liftSpeedTest e.downloadMeasurementBps
  pure (m / 1000000)

/-- Embeds the `spawn_blocking` closure of `perform_upload_test`
(`src/main.rs:166-176`, `src/tests.rs:44-52`): same chain with the upload
measurement, returning `bps_f64() / 1_000_000.0` (Mbps). -/
def uploadClosure (e : EngineOracle) : Except ServiceError ℚ := do
  let _config ← liftSpeedTest e.getConfiguration
  let _servers ← liftSpeedTest e.getServerList
  let _best ← liftSpeedTest e.getBestServer
  let m ← liftSpeedTest e.uploadMeasurementBps
  pure (m / 1000000)

/-- Embeds `perform_download_test` (`src/main.rs:149-163`): `.await??` on the
`spawn_blocking` handle — a join failure becomes `TaskJoinError` via
`From<JoinError>`, otherwise the closure's result stands. -/
def perform_download_test (e : EngineOracle) (joinOk : Bool) : Except ServiceError ℚ :=
  if joinOk then downloadClosure e else .error ServiceError.TaskJoinError

/-- Embeds `perform_upload_test` (`src/main.rs:165-179`, `src/tests.rs:43-55`). -/
def perform_upload_test (e : EngineOracle) (joinOk : Bool) : Except ServiceError ℚ :=
  if joinOk then uploadClosure e else .error ServiceError.TaskJoinError

/-- Embeds the `SpeedTestResult` struct of `src/models.rs:4-10`. The
`DateTime<Utc>` timestamp is modelled as a rational wall-clock reading. -/
structure SpeedTestResult where
  download : ℚ
  upload : ℚ
  ping : ℚ
  timestamp : ℚ
deriving Repr, DecidableEq

/-- Embeds `SpeedTestResult::new` (`src/models.rs:12-21`): the constructor
stores the three values and stamps `timestamp` with the single `Utc::now()`
reading taken at construction, passed here explicitly as `now`. -/
def SpeedTestResult.new (download upload ping now : ℚ) : SpeedTestResult :=
  ⟨download, upload, ping, now⟩

/-- Embeds the `MqttMessage` struct of `src/models.rs:23-29`. -/
structure MqttMessage where
  name : String
  state_topic : String
  unit_of_measurement : String
  value_template : ℚ
deriving Repr, DecidableEq

/-- Embeds `From<SpeedTestResult> for Vec<MqttMessage>`
(`src/models.rs:31-54`): a fixed three-element vector — download, upload,
ping — with hard-coded names, state topics and units, each carrying the
corresponding field of the input as `value_template`. -/
def SpeedTestResult.toMqttMessages (result : SpeedTestResult) : List MqttMessage :=
  [ ⟨"Speedtest Download", "homeassistant/sensor/Speedtest/Download", "Mbps", result.download⟩,
    ⟨"Speedtest Upload", "homeassistant/sensor/Speedtest/Upload", "Mbps", result.upload⟩,
    ⟨"Speedtest Ping", "homeassistant/sensor/Speedtest/Ping", "ms", result.ping⟩ ]

/-- Embeds the `discovery_messages` vector of `src/mqtt.rs:20-24`:
`(name, unit_of_measurement, device_class)` per measurement kind. -/
def discovery_messages : List (String × String × String) :=
  [ ("download", "Mbit/s", "data_rate"),
    ("upload", "Mbit/s", "data_rate"),
    ("ping", "ms", "duration") ]

/-- Embeds the `config_topic` format string of `src/mqtt.rs:27`. -/
def configTopic (name : String) : String :=
  "homeassistant/sensor/speedtest/" ++ name ++ "/config"

/-- Observable events of `publish_discovery_message`: an attempted broker
publish (with its topic, retain flag, descriptor name and attempt number), or
a `tokio::time::sleep` of the given number of seconds. -/
inductive Ev where
  | publishAttempt (topic : String) (retain : Bool) (name : String) (attempt : Nat)
  | sleepSec (n : Nat)
deriving Repr, DecidableEq

/-- Broker oracle for discovery publishing: `broker name attempt` tells
whether `client.publish` of that descriptor's config message succeeds on that
attempt. -/
def BrokerOracle : Type := String → Nat → Bool

/-- Shorthand for a discovery publish attempt event: always to the
descriptor's config topic, always with `retain = true` (`src/mqtt.rs:41-46`
passes `true` as the retain argument). -/
def discAttempt (name : String) (attempt : Nat) : Ev :=
  Ev.publishAttempt (configTopic name) true name attempt

/-- Embeds the inner `for attempt in 1..=3` loop of `publish_discovery_message`
(`src/mqtt.rs:40-66`), unrolled over its literal bound: on success break; on
failure with `attempt < 3` log a warning, sleep 1 s, and retry; on failure at
`attempt = 3` log an error (the caller then returns `Err`). Returns the event
trace of the loop and whether the descriptor was published. -/
def publishDescriptorTrace (broker : BrokerOracle) (name : String) : List Ev × Bool :=
  if broker name 1 then ([discAttempt name 1], true)
  else if broker name 2 then
    ([discAttempt name 1, Ev.sleepSec 1, discAttempt name 2], true)
  else if broker name 3 then
    ([discAttempt name 1, Ev.sleepSec 1, discAttempt name 2, Ev.sleepSec 1,
      discAttempt name 3], true)
  else
    ([discAttempt name 1, Ev.sleepSec 1, discAttempt name 2, Ev.sleepSec 1,
      discAttempt name 3], false)

/-- Embeds the outer descriptor loop of `publish_discovery_message`
(`src/mqtt.rs:26-67`): descriptors are processed in order; when one
descriptor's three attempts are all exhausted the function returns
`Err(ServiceError::MqttClientError(..))` at once (`src/mqtt.rs:63`), so later
descriptors are not reached. -/
def publishDiscoveryGo (broker : BrokerOracle) :
    List (String × String × String) → List Ev × Except ServiceError Unit
  | [] => ([], .ok ())
  | (name, _, _) :: rest =>
    if (publishDescriptorTrace broker name).2 then
      ((publishDescriptorTrace broker name).1 ++ (publishDiscoveryGo broker rest).1,
       (publishDiscoveryGo broker rest).2)
    else
      ((publishDescriptorTrace broker name).1, .error ServiceError.MqttClientError)

/-- Embeds `publish_discovery_message` (`src/mqtt.rs:19-69`): the descriptor
loop run over `discovery_messages`, returning the full event trace and the
function's result. -/
def publish_discovery_message (broker : BrokerOracle) : List Ev × Except ServiceError Unit :=
  publishDiscoveryGo broker discovery_messages

/-- Payload of an MQTT publish made in `main`. The `speed_test_task` pipeline
publishes the formatted results string of `src/main.rs:94-97`; its data
content is the `TestResults` value (the `{:.2}` text formatting is abstracted
away, the three numbers determine the string). -/
inductive Payload where
  | stateText (r : TestResults)
deriving Repr, DecidableEq

/-- An MQTT publish performed by the publisher task: topic, retain flag and
payload (`src/main.rs:99-104` always uses QoS `AtLeastOnce`). -/
structure MqttPublish where
  topic : String
  retain : Bool
  payload : Payload
deriving Repr, DecidableEq

/-- State of the tokio mpsc channel created by `mpsc::channel(1)`
(`src/main.rs:69`): a FIFO buffer bounded by `capacity`, plus whether the
receiving half has been dropped (which makes `send` fail immediately). -/
structure Channel where
  buffer : List TestResults
  capacity : Nat
  receiverClosed : Bool
deriving Repr, DecidableEq

/-- Phase of the `speed_test_task` loop (`src/main.rs:76-89`): about to run
the next cycle (`idle`), suspended in `result_tx.send(..).await` waiting for
channel capacity (`sending r`), or in the `sleep(check_interval)` phase
(`sleeping`). -/
inductive SchedPhase where
  | idle
  | sending (r : TestResults)
  | sleeping
deriving Repr, DecidableEq

/-- Joint state of the three tasks spawned by `main` (`src/main.rs:76-124`)
plus the observable logs: snapshots successfully sent into the channel,
snapshots received by the publisher, broker publishes performed, and counts of
`warn!`/`error!` lines. `schedDone`/`pubDone`/`pumpDone` record whether the
corresponding task has terminated. -/
structure SystemState where
  ch : Channel
  sched : SchedPhase
  schedDone : Bool
  pubDone : Bool
  pumpDone : Bool
  sent : List TestResults
  received : List TestResults
  published : List MqttPublish
  warnings : Nat
  errors : Nat
deriving Repr, DecidableEq

/-- One scheduling directive: which task runs next, together with the oracle
outcome its blocking call observes. `schedStep cyc` advances `speed_test_task`
one phase, with `cyc` the outcome of `perform_all_tests` (consumed only in the
`idle` phase). `pubStep ok` advances `mqtt_publish_task` (`ok` is the publish
outcome). `pumpStep ok` advances `mqtt_eventloop_task` (`ok` is the poll
outcome). `closeReceiver` models the environment dropping the receiving half
(publisher task terminated/aborted), the precondition of claim C4. -/
inductive Directive where
  | schedStep (cyc : Except ServiceError TestResults)
  | pubStep (publishOk : Bool)
  | pumpStep (pollOk : Bool)
  | closeReceiver
deriving Repr

/-- Embeds `result_tx.send(results).await` followed by the `if let Err`
warning (`src/main.rs:80-82`) under tokio mpsc semantics: if the receiver is
dropped, `send` returns `Err` at once — the task logs a warning and proceeds
to its sleep; if the buffer has spare capacity, the snapshot is enqueued and
the task proceeds to its sleep; otherwise the task stays suspended in `send`
holding the snapshot (no drop), which delays the start of its sleep. -/
def trySend (s : SystemState) (r : TestResults) : SystemState :=
  if s.ch.receiverClosed then
    { s with sched := SchedPhase.sleeping, warnings := s.warnings + 1 }
  else if s.ch.buffer.length < s.ch.capacity then
    { s with ch := { s.ch with buffer := s.ch.buffer ++ [r] },
             sent := s.sent ++ [r],
             sched := SchedPhase.sleeping }
  else
    { s with sched := SchedPhase.sending r }

/-- Small-step semantics of the three tasks of `main`. `schedStep`: the
`speed_test_task` loop body — on `Ok(results)` attempt the channel send, on
`Err` log an error and go straight to the sleep (`src/main.rs:78-87`); the
loop has no break, so the task never terminates. `pubStep`: the
`while let Some(results) = result_rx.recv().await` body — dequeue one
snapshot and publish the formatted payload to `"speedtest/results"` with
`retain = false`, logging success or error and continuing either way
(`src/main.rs:93-108`); with an empty buffer and a live sender, `recv`
stays pending. `pumpStep`: the `mqtt_connection.eventloop.poll()` loop —
`Ok` logs at debug and continues, `Err` logs an error and `break`s out of
the loop, ending only that task (`src/main.rs:113-123`). -/
def step (s : SystemState) : Directive → SystemState
  | .schedStep cyc =>
    if s.schedDone then s
    else
      match s.sched with
      | .idle =>
        match cyc with
        | .ok r => trySend s r
        | .error _ => { s with sched := SchedPhase.sleeping, errors := s.errors + 1 }
      | .sending r => trySend s r
      | .sleeping => { s with sched := SchedPhase.idle }
  | .pubStep publishOk =>
    if s.pubDone then s
    else
      match s.ch.buffer with
      | [] => s
      | r :: rest =>
        { s with ch := { s.ch with buffer := rest },
                 received := s.received ++ [r],
                 published :=
                   if publishOk then
                     s.published ++ [⟨"speedtest/results", false, Payload.stateText r⟩]
                   else s.published,
                 errors := if publishOk then s.errors else s.errors + 1 }
  | .pumpStep pollOk =>
    if s.pumpDone then s
    else if pollOk then s
    else { s with pumpDone := true, errors := s.errors + 1 }
  | .closeReceiver =>
    { s with ch := { s.ch with receiverClosed := true }, pubDone := true }

/-- Initial system state after the wiring in `main` (`src/main.rs:68-74`):
the mpsc channel is created with capacity exactly 1 and empty buffer, all
three tasks are live, and no snapshot or publish has happened. -/
def initialState : SystemState :=
  ⟨⟨[], 1, false⟩, SchedPhase.idle, false, false, false, [], [], [], 0, 0⟩

/-- Runs a directive schedule from the initial state. -/
def run (ds : List Directive) : SystemState :=
  ds.foldl step initialState

/-- Holds when `tokio::join!` on the three task handles (`src/main.rs:126`)
has completed, i.e. all three tasks have terminated — the only way `main`
ever returns. -/
def processExited (s : SystemState) : Bool :=
  s.schedDone && s.pubDone && s.pumpDone

/-- Embeds the value `main` returns if the join ever completes
(`src/main.rs:127`): unconditionally `Ok(())`, i.e. process exit code 0. -/
def mainResult : Except ServiceError Unit := .ok ()

/-- Embeds the fact that `perform_all_tests` performs no clock read: the
snapshot produced by a cycle whose aggregation completes at wall-clock time
`t` is `perform_all_tests` of the probe outcomes, independent of `t` (no
`now()` call occurs anywhere in `src/main.rs:130-147`). -/
def snapshotAtCompletionTime (download upload ping : Except Unit (Except ServiceError ℚ))
    (_t : ℚ) : Except ServiceError TestResults :=
  perform_all_tests download upload ping

/-- Name of the download descriptor in `discovery_messages`. -/
def downloadName : String := "download"

/-- Name of the upload descriptor in `discovery_messages`. -/
def uploadName : String := "upload"

/-- Name of the ping descriptor in `discovery_messages`. -/
def pingName : String := "ping"

/-- Counts the publish attempts for a given descriptor name in an event
trace. -/
def attemptsFor (evs : List Ev) (name : String) : Nat :=
  (evs.filter fun e =>
    match e with
    | Ev.publishAttempt _ _ n _ => n == name
    | Ev.sleepSec _ => false).length

/-- Broker oracle on which every publish succeeds. -/
def brokerAlwaysOk : BrokerOracle := fun _ _ => true

/-- Broker oracle on which every publish fails. -/
def brokerAllFail : BrokerOracle := fun _ _ => false

/-- Broker oracle on which every publish for the download descriptor fails and
every other publish succeeds. -/
def brokerDlFail : BrokerOracle := fun name _ => name != downloadName

/-- Engine oracle whose probe chain succeeds with a measurement of
`50_000_000` bits per second for both download and upload. -/
def oracle50 : EngineOracle := ⟨.ok (), .ok (), .ok 1, .ok 50000000, .ok 50000000⟩

/-- Modelled from the spec: the source under `src/` contains no jitter code
(the spec attributes the jitter mode to the historical design of the latency
probe), so the jitter computation is taken from the spec's formula
`jitter = (1/N) * Σ|sample_i - mean|`, the mean absolute deviation from the
sample mean. -/
def jitter (samples : List ℚ) : ℚ :=
  let n : ℚ := samples.length
  let mean := samples.sum / n
  (samples.map fun s => |s - mean|).sum / n

/-- Modelled from the spec: the jitter mode takes `N = 10` sequential latency
samples (no such constant exists in `src/`). -/
def jitterSampleCount : Nat := 10

/-- Modelled from the spec: consecutive jitter samples are spaced 100 ms apart
(no such constant exists in `src/`). -/
def jitterSampleDelayMs : Nat := 100

/-- Modelled from the spec: the jitter mode collects `jitterSampleCount`
sequential samples from the latency source and applies `jitter` to them. -/
def jitterMode (sample : Nat → ℚ) : ℚ :=
  jitter ((List.range jitterSampleCount).map sample)

/-- Invariant of the hand-off channel maintained by every step: the capacity
stays 1, the buffer never exceeds it, and the snapshots the publisher has
received followed by those still buffered are exactly the snapshots sent, in
order (FIFO, no loss, no duplication). -/
def ChanInv (s : SystemState) : Prop :=
  s.ch.capacity = 1 ∧ s.ch.buffer.length ≤ 1 ∧ s.received ++ s.ch.buffer = s.sent

/-- Property that every broker publish performed by the publisher task is an
unretained state message to the fixed `speedtest/results` topic. -/
def PubsStateOnly (s : SystemState) : Prop :=
  ∀ m ∈ s.published, m.topic = "speedtest/results" ∧ m.retain = false

/-- Directive schedule for claim C3: the connection pump observes a poll
failure, then the scheduler completes a successful cycle and the publisher
publishes it. -/
def c3schedule : List Directive :=
  [Directive.pumpStep false, Directive.schedStep (.ok ⟨100, 50, 10⟩), Directive.pubStep true]

/-- Directive schedule for claim C4: the receiving half of the channel is
closed, then the scheduler completes a cycle (its push fails), sleeps, and
completes a further cycle (whose push fails again). The snapshot payload of
the directive driving the sleeping-to-idle transition is unused. -/
def c4schedule : List Directive :=
  [Directive.closeReceiver,
   Directive.schedStep (.ok ⟨1, 1, 1⟩),
   Directive.schedStep (.ok ⟨9, 9, 9⟩),
   Directive.schedStep (.ok ⟨2, 2, 2⟩)]

/-- Directive schedule for claim C8: one successful cycle is pushed and the
publisher consumes and publishes it. -/
def c8schedule : List Directive :=
  [Directive.schedStep (.ok ⟨100, 50, 10⟩), Directive.pubStep true]

/-- Directive schedule for claim C6's witness: a first snapshot is sent into
the empty channel, the scheduler's sleep elapses, leaving it idle with a full
buffer. -/
def c6schedule : List Directive :=
  [Directive.schedStep (.ok ⟨1, 1, 1⟩), Directive.schedStep (.ok ⟨9, 9, 9⟩)]

/-! Helper lemmas about the task step function. -/

theorem trySend_schedDone (s : SystemState) (r : TestResults) :
    (trySend s r).schedDone = s.schedDone := by
  unfold trySend
  split_ifs <;> rfl

theorem trySend_published (s : SystemState) (r : TestResults) :
    (trySend s r).published = s.published := by
  unfold trySend
  split_ifs <;> rfl

theorem step_schedDone (s : SystemState) (d : Directive) :
    (step s d).schedDone = s.schedDone := by
  cases d <;> simp only [step, trySend] <;>
    repeat' first | rfl | split

theorem foldl_schedDone (ds : List Directive) (s : SystemState) :
    (ds.foldl step s).schedDone = s.schedDone := by
  induction ds generalizing s with
  | nil => rfl
  | cons d ds ih => rw [List.foldl_cons, ih, step_schedDone]

theorem run_schedDone (ds : List Directive) : (run ds).schedDone = false :=
  foldl_schedDone ds initialState

theorem chanInv_trySend (s : SystemState) (r : TestResults) (h : ChanInv s) :
    ChanInv (trySend s r) := by
  obtain ⟨hc, hl, hf⟩ := h
  unfold trySend
  split_ifs with h1 h2
  · exact ⟨hc, hl, hf⟩
  · refine ⟨hc, ?_, ?_⟩
    · have hlt : s.ch.buffer.length < 1 := hc ▸ h2
      simp only [List.length_append, List.length_singleton]
      omega
    · show s.received ++ (s.ch.buffer ++ [r]) = s.sent ++ [r]
      rw [← List.append_assoc, hf]
  · exact ⟨hc, hl, hf⟩

theorem chanInv_step (s : SystemState) (d : Directive) (h : ChanInv s) :
    ChanInv (step s d) := by
  obtain ⟨hc, hl, hf⟩ := h
  cases d with
  | schedStep cyc =>
    simp only [step]
    split
    · exact ⟨hc, hl, hf⟩
    · cases s.sched with
      | idle =>
        cases cyc with
        | ok r => exact chanInv_trySend s r ⟨hc, hl, hf⟩
        | error e => exact ⟨hc, hl, hf⟩
      | sending r => exact chanInv_trySend s r ⟨hc, hl, hf⟩
      | sleeping => exact ⟨hc, hl, hf⟩
  | pubStep publishOk =>
    simp only [step]
    split
    · exact ⟨hc, hl, hf⟩
    · split
      · exact ⟨hc, hl, hf⟩
      · rename_i r rest hb
        rw [hb] at hl hf
        refine ⟨hc, ?_, ?_⟩
        · show rest.length ≤ 1
          simp only [List.length_cons] at hl
          omega
        · show (s.received ++ [r]) ++ rest = s.sent
          rw [List.append_assoc, List.singleton_append, hf]
  | pumpStep pollOk =>
    simp only [step]
    split_ifs <;> exact ⟨hc, hl, hf⟩
  | closeReceiver => exact ⟨hc, hl, hf⟩

theorem chanInv_foldl (ds : List Directive) (s : SystemState) (h : ChanInv s) :
    ChanInv (ds.foldl step s) := by
  induction ds generalizing s with
  | nil => exact h
  | cons d ds ih => exact ih (step s d) (chanInv_step s d h)

theorem chanInv_run (ds : List Directive) : ChanInv (run ds) :=
  chanInv_foldl ds initialState ⟨rfl, by simp [initialState], rfl⟩

theorem pubsStateOnly_step (s : SystemState) (d : Directive) (h : PubsStateOnly s) :
    PubsStateOnly (step s d) := by
  cases d with
  | schedStep cyc =>
    simp only [step]
    split
    · exact h
    · cases s.sched with
      | idle =>
        cases cyc with
        | ok r =>
          intro m hm
          rw [trySend_published] at hm
          exact h m hm
        | error e => exact h
      | sending r =>
        intro m hm
        rw [trySend_published] at hm
        exact h m hm
      | sleeping => exact h
  | pubStep publishOk =>
    simp only [step]
    split
    · exact h
    · cases s.ch.buffer with
      | nil => exact h
      | cons r rest =>
        intro m hm
        by_cases hp : publishOk = true
        · simp only [hp, if_true] at hm
          rcases List.mem_append.mp hm with hmem | hmem
          · exact h m hmem
          · rw [List.mem_singleton.mp hmem]
            exact ⟨rfl, rfl⟩
        · simp only [hp, if_false] at hm
          exact h m hm
  | pumpStep pollOk =>
    simp only [step]
    split_ifs <;> exact h
  | closeReceiver => exact h

theorem pubsStateOnly_foldl (ds : List Directive) (s : SystemState) (h : PubsStateOnly s) :
    PubsStateOnly (ds.foldl step s) := by
  induction ds generalizing s with
  | nil => exact h
  | cons d ds ih => exact ih (step s d) (pubsStateOnly_step s d h)

theorem pubsStateOnly_run (ds : List Directive) : PubsStateOnly (run ds) :=
  pubsStateOnly_foldl ds initialState (by intro m hm; simp [initialState] at hm)

/-! Helper lemmas about the discovery retry loop. -/

theorem attemptsFor_append (a b : List Ev) (name : String) :
    attemptsFor (a ++ b) name = attemptsFor a name + attemptsFor b name := by
  simp [attemptsFor, List.filter_append]

theorem publishDescriptorTrace_le (broker : BrokerOracle) (n name : String) :
    attemptsFor (publishDescriptorTrace broker n).1 name ≤ 3 := by
  cases h1 : broker n 1 <;> cases h2 : broker n 2 <;> cases h3 : broker n 3 <;>
    simp [publishDescriptorTrace, h1, h2, h3, attemptsFor, discAttempt] <;>
    cases hn : (n == name) <;> simp [hn]

theorem publishDescriptorTrace_ne (broker : BrokerOracle) (n name : String)
    (h : (n == name) = false) :
    attemptsFor (publishDescriptorTrace broker n).1 name = 0 := by
  cases h1 : broker n 1 <;> cases h2 : broker n 2 <;> cases h3 : broker n 3 <;>
    simp [publishDescriptorTrace, h1, h2, h3, attemptsFor, discAttempt, h]

theorem publishDescriptorTrace_fail (broker : BrokerOracle) (n : String)
    (h : (publishDescriptorTrace broker n).2 = false) :
    broker n 1 = false ∧ broker n 2 = false ∧ broker n 3 = false := by
  cases h1 : broker n 1 <;> cases h2 : broker n 2 <;> cases h3 : broker n 3 <;>
    simp [publishDescriptorTrace, h1, h2, h3] at h ⊢

theorem publish_discovery_message_eq (broker : BrokerOracle) :
    publish_discovery_message broker =
      if (publishDescriptorTrace broker downloadName).2 then
        if (publishDescriptorTrace broker uploadName).2 then
          if (publishDescriptorTrace broker pingName).2 then
            ((publishDescriptorTrace broker downloadName).1 ++
              ((publishDescriptorTrace broker uploadName).1 ++
                ((publishDescriptorTrace broker pingName).1 ++ [])), .ok ())
          else
            ((publishDescriptorTrace broker downloadName).1 ++
              ((publishDescriptorTrace broker uploadName).1 ++
                (publishDescriptorTrace broker pingName).1),
             .error ServiceError.MqttClientError)
        else
          ((publishDescriptorTrace broker downloadName).1 ++
            (publishDescriptorTrace broker uploadName).1,
           .error ServiceError.MqttClientError)
      else
        ((publishDescriptorTrace broker downloadName).1,
         .error ServiceError.MqttClientError) := by
  simp only [publish_discovery_message, discovery_messages, publishDiscoveryGo,
    downloadName, uploadName, pingName]
  by_cases hD : (publishDescriptorTrace broker "download").2 = true <;>
    by_cases hU : (publishDescriptorTrace broker "upload").2 = true <;>
    by_cases hP : (publishDescriptorTrace broker "ping").2 = true <;>
    simp [hD, hU, hP]

theorem publishDescriptorTrace_mem_shape (broker : BrokerOracle) (n : String)
    (topic : String) (retain : Bool) (name : String) (k : Nat)
    (h : Ev.publishAttempt topic retain name k ∈ (publishDescriptorTrace broker n).1) :
    topic = configTopic name ∧ retain = true ∧ name = n := by
  cases h1 : broker n 1 <;> cases h2 : broker n 2 <;> cases h3 : broker n 3 <;>
    simp [publishDescriptorTrace, h1, h2, h3, discAttempt] at h <;>
    · obtain ⟨ht, hr, hn, _⟩ :=
        (by tauto :
          topic = configTopic n ∧ retain = true ∧ name = n ∧ True)
      exact ⟨hn ▸ ht, hr, hn⟩

/-! Claim theorems. -/

/-- C1: `perform_all_tests` is all-or-nothing — its result is a success
exactly when the download, upload and ping probe tasks all joined and all
succeeded; in that case the snapshot carries exactly the three probe values,
and otherwise an error is returned with no partial snapshot; moreover, on a
failed cycle the scheduler only logs and goes to sleep, pushing nothing into
the hand-off channel, so nothing is published for that cycle. -/
theorem C1_all_or_nothing :
    (∀ d u p, (perform_all_tests d u p).isOk = (okOk d && okOk u && okOk p)) ∧
    (∀ dv uv pv : ℚ,
      perform_all_tests (.ok (.ok dv)) (.ok (.ok uv)) (.ok (.ok pv)) = .ok ⟨dv, uv, pv⟩) ∧
    (∀ (s : SystemState) (e : ServiceError),
      s.schedDone = false → s.sched = SchedPhase.idle →
      step s (Directive.schedStep (.error e))
        = { s with sched := SchedPhase.sleeping, errors := s.errors + 1 }) := by
  refine ⟨?_, ?_, ?_⟩
  · intro d u p
    rcases d with _ | (_ | d) <;> rcases u with _ | (_ | u) <;>
      rcases p with _ | (_ | p) <;> rfl
  · intro dv uv pv
    rfl
  · intro s e h1 h2
    simp [step, h1, h2]

/-- Witness for C1: a cycle failing with a join error at the initial state
leaves the channel, sent list and publish log untouched. -/
theorem C1_all_or_nothing_witness :
    step initialState (Directive.schedStep (.error ServiceError.TaskJoinError))
      = { initialState with sched := SchedPhase.sleeping,
                            errors := initialState.errors + 1 } :=
  C1_all_or_nothing.2.2 initialState ServiceError.TaskJoinError rfl rfl

/-- C5: (modelled from the spec) jitter is the mean absolute deviation from
the sample mean; on the samples [10, 20, 30] it equals 20/3, and the modelled
sampling takes 10 sequential samples spaced 100 ms apart. -/
theorem C5_jitter_formula :
    jitter [10, 20, 30] = 20 / 3 ∧
    jitterSampleCount = 10 ∧ jitterSampleDelayMs = 100 ∧
    (∀ f : Nat → ℚ, jitterMode f = jitter ((List.range 10).map f)) := by
  refine ⟨?_, rfl, rfl, fun f => rfl⟩
  norm_num [jitter]

/-- C7: on a successful probe, the value produced by the download and upload
probes is the engine's bits-per-second measurement divided by 1,000,000. -/
theorem C7_unit_conversion (e : EngineOracle) (lat dbps ubps : ℚ)
    (hc : e.getConfiguration = .ok ()) (hs : e.getServerList = .ok ())
    (hb : e.getBestServer = .ok lat)
    (hd : e.downloadMeasurementBps = .ok dbps)
    (hu : e.uploadMeasurementBps = .ok ubps) :
    perform_download_test e true = .ok (dbps / 1000000) ∧
    perform_upload_test e true = .ok (ubps / 1000000) := by
  constructor <;>
    · simp [perform_download_test, perform_upload_test, downloadClosure, uploadClosure,
        liftSpeedTest, hc, hs, hb, hd, hu]
      rfl

/-- Witness for C7: an engine measurement of 50,000,000 bits per second is
published as exactly 50 Mbps. -/
theorem C7_unit_conversion_witness :
    perform_download_test oracle50 true = .ok 50 ∧
    perform_upload_test oracle50 true = .ok 50 := by
  have h := C7_unit_conversion oracle50 1 50000000 50000000 rfl rfl rfl rfl rfl
  have h50 : (50000000 : ℚ) / 1000000 = 50 := by norm_num
  rw [h50] at h
  exact h

/-- C9 counterexample: no function of the produced snapshot recovers the
wall-clock time at aggregation completion — the snapshot of a successful
cycle is identical whether aggregation completes at time 5 or at time 7, so
the snapshot carries no capture timestamp at all. -/
theorem C9_counterexample :
    ¬ ∃ f : TestResults → ℚ, ∀ t : ℚ,
      (snapshotAtCompletionTime (.ok (.ok 1)) (.ok (.ok 2)) (.ok (.ok 3)) t).toOption.map f
        = some t := by
  rintro ⟨f, hf⟩
  have h5 := hf 5
  have h7 := hf 7
  simp only [snapshotAtCompletionTime, perform_all_tests, flattenTask,
    Except.toOption, Option.map, Option.some.injEq] at h5 h7
  rw [h5] at h7
  norm_num at h7

/-- C9 (amended): the cycle snapshot `TestResults` carries no timestamp — it
is independent of the wall-clock time at aggregation completion — while the
separate (unused by `main`) `SpeedTestResult::new` constructor stamps its
`timestamp` field with the single clock reading taken at construction. -/
theorem C9_timestamp_behavior
    (download upload ping : Except Unit (Except ServiceError ℚ)) (t t' d u p now : ℚ) :
    snapshotAtCompletionTime download upload ping t
      = snapshotAtCompletionTime download upload ping t' ∧
    (SpeedTestResult.new d u p now).timestamp = now ∧
    (SpeedTestResult.new d u p now).download = d ∧
    (SpeedTestResult.new d u p now).upload = u ∧
    (SpeedTestResult.new d u p now).ping = p :=
  ⟨rfl, rfl, rfl, rfl, rfl⟩

/-- C10: converting a `SpeedTestResult` to MQTT messages yields exactly three
messages, in the order download, upload, ping, with the fixed names, state
topics and units of `src/models.rs`, each carrying the corresponding input
field unchanged as `value_template`; the conversion is deterministic and the
timestamp field does not affect it. -/
theorem C10_message_derivation (r : SpeedTestResult) (t : ℚ) :
    r.toMqttMessages
      = [ ⟨"Speedtest Download", "homeassistant/sensor/Speedtest/Download",
           "Mbps", r.download⟩,
          ⟨"Speedtest Upload", "homeassistant/sensor/Speedtest/Upload",
           "Mbps", r.upload⟩,
          ⟨"Speedtest Ping", "homeassistant/sensor/Speedtest/Ping",
           "ms", r.ping⟩ ] ∧
    SpeedTestResult.toMqttMessages { r with timestamp := t } = r.toMqttMessages :=
  ⟨rfl, rfl⟩

/-- C2 counterexample: with a broker on which every publish for the download
descriptor fails and every other publish succeeds,
`publish_discovery_message` makes exactly the three download attempts and
returns an error without ever attempting the upload or ping descriptors —
it does not continue with the next descriptor. -/
theorem C2_counterexample :
    (publish_discovery_message brokerDlFail).1
      = [discAttempt downloadName 1, Ev.sleepSec 1, discAttempt downloadName 2,
         Ev.sleepSec 1, discAttempt downloadName 3] ∧
    (publish_discovery_message brokerDlFail).2 = .error ServiceError.MqttClientError ∧
    attemptsFor (publish_discovery_message brokerDlFail).1 uploadName = 0 ∧
    attemptsFor (publish_discovery_message brokerDlFail).1 pingName = 0 := by
  refine ⟨rfl, rfl, by decide, by decide⟩

/-- C2 (amended): each descriptor is attempted at most 3 times, with a
1-second sleep between consecutive attempts of a descriptor; but when all 3
attempts for one descriptor fail, `publish_discovery_message` logs an error
and returns an error immediately — a failure can only come from a descriptor
whose three attempts all failed, and when the download descriptor exhausts
its attempts the trace is the download attempts alone, the remaining
descriptors never attempting to publish. -/
theorem C2_retry_bound (broker : BrokerOracle) :
    (attemptsFor (publish_discovery_message broker).1 downloadName ≤ 3 ∧
     attemptsFor (publish_discovery_message broker).1 uploadName ≤ 3 ∧
     attemptsFor (publish_discovery_message broker).1 pingName ≤ 3) ∧
    (∀ name, (publishDescriptorTrace broker name).1 ∈
        [[discAttempt name 1],
         [discAttempt name 1, Ev.sleepSec 1, discAttempt name 2],
         [discAttempt name 1, Ev.sleepSec 1, discAttempt name 2,
          Ev.sleepSec 1, discAttempt name 3]]) ∧
    ((publish_discovery_message broker).2.isOk = false →
      ∃ name, (name = downloadName ∨ name = uploadName ∨ name = pingName) ∧
        broker name 1 = false ∧ broker name 2 = false ∧ broker name 3 = false) ∧
    (broker downloadName 1 = false → broker downloadName 2 = false →
     broker downloadName 3 = false →
      (publish_discovery_message broker).1
          = (publishDescriptorTrace broker downloadName).1 ∧
      (publish_discovery_message broker).2 = .error ServiceError.MqttClientError) := by
  have hUD : (uploadName == downloadName) = false := by decide
  have hPD : (pingName == downloadName) = false := by decide
  have hDU : (downloadName == uploadName) = false := by decide
  have hPU : (pingName == uploadName) = false := by decide
  have hDP : (downloadName == pingName) = false := by decide
  have hUP : (uploadName == pingName) = false := by decide
  refine ⟨?_, ?_, ?_, ?_⟩
  · rw [publish_discovery_message_eq]
    by_cases hD : (publishDescriptorTrace broker downloadName).2 = true <;>
      by_cases hU : (publishDescriptorTrace broker uploadName).2 = true <;>
      by_cases hP : (publishDescriptorTrace broker pingName).2 = true <;>
      simp [hD, hU, hP, attemptsFor_append, publishDescriptorTrace_le,
        publishDescriptorTrace_ne, hUD, hPD, hDU, hPU, hDP, hUP]
  · intro name
    cases h1 : broker name 1 <;> cases h2 : broker name 2 <;>
      cases h3 : broker name 3 <;> simp [publishDescriptorTrace, h1, h2, h3]
  · intro hfail
    rw [publish_discovery_message_eq] at hfail
    by_cases hD : (publishDescriptorTrace broker downloadName).2 = true
    · by_cases hU : (publishDescriptorTrace broker uploadName).2 = true
      · by_cases hP : (publishDescriptorTrace broker pingName).2 = true
        · simp [hD, hU, hP, Except.isOk, Except.toBool] at hfail
        · exact ⟨pingName, Or.inr (Or.inr rfl),
            publishDescriptorTrace_fail broker pingName (by simpa using hP)⟩
      · exact ⟨uploadName, Or.inr (Or.inl rfl),
          publishDescriptorTrace_fail broker uploadName (by simpa using hU)⟩
    · exact ⟨downloadName, Or.inl rfl,
        publishDescriptorTrace_fail broker downloadName (by simpa using hD)⟩
  · intro h1 h2 h3
    have hD : (publishDescriptorTrace broker downloadName).2 = false := by
      simp [publishDescriptorTrace, h1, h2, h3]
    rw [publish_discovery_message_eq]
    simp [hD]

/-- Witness for C2 at the broker on which every publish fails: the whole
trace is the download descriptor's attempts, the result is the early error,
and the download attempt count is within the bound. -/
theorem C2_retry_bound_witness :
    (publish_discovery_message brokerAllFail).1
        = (publishDescriptorTrace brokerAllFail downloadName).1 ∧
    (publish_discovery_message brokerAllFail).2 = .error ServiceError.MqttClientError ∧
    attemptsFor (publish_discovery_message brokerAllFail).1 downloadName ≤ 3 := by
  have h := C2_retry_bound brokerAllFail
  exact ⟨(h.2.2.2 rfl rfl rfl).1, (h.2.2.2 rfl rfl rfl).2, h.1.1⟩

/-- C3 counterexample: after a poll failure ends the event-loop task, the
scheduler still completes a cycle and the publisher still publishes its
snapshot, and the process has not exited — the system keeps scheduling and
publishing after the poll failure. -/
theorem C3_counterexample :
    (run c3schedule).pumpDone = true ∧
    (run c3schedule).published
      = [⟨"speedtest/results", false, Payload.stateText ⟨100, 50, 10⟩⟩] ∧
    processExited (run c3schedule) = false :=
  ⟨rfl, rfl, rfl⟩

/-- C3 (amended): a poll failure makes the event-loop task log the error and
break out of its own loop only; no other task state changes, the process
never exits on any schedule (the scheduler loop never terminates, so the
`tokio::join!` in `main` never completes), and were `main` ever to return it
would return `Ok(())`, exit code 0 — not a non-zero exit. -/
theorem C3_poll_failure_not_fatal :
    (∀ ds, processExited (run ds) = false) ∧
    (∀ s : SystemState, step s (Directive.pumpStep false)
        = if s.pumpDone then s
          else { s with pumpDone := true, errors := s.errors + 1 }) ∧
    mainResult = .ok () := by
  refine ⟨?_, fun s => rfl, rfl⟩
  intro ds
  simp [processExited, run_schedDone]

/-- C4 counterexample: with the receiving half of the channel closed, the
scheduler's push fails and is logged as a warning, but the scheduler does not
terminate its loop — it sleeps and performs a further cycle whose push fails
again, leaving two warnings and a still-live loop. -/
theorem C4_counterexample :
    (run c4schedule).warnings = 2 ∧
    (run c4schedule).schedDone = false ∧
    (run c4schedule).sched = SchedPhase.sleeping :=
  ⟨rfl, rfl, rfl⟩

/-- C4 (amended): when the receiving end is closed, the scheduler's push of a
snapshot fails without panicking and is logged as a warning, and the
scheduler proceeds to its sleep phase, its loop still running (it does not
terminate). -/
theorem C4_closed_channel_push (s : SystemState) (r : TestResults)
    (h1 : s.schedDone = false) (h2 : s.sched = SchedPhase.idle)
    (h3 : s.ch.receiverClosed = true) :
    step s (Directive.schedStep (.ok r))
      = { s with sched := SchedPhase.sleeping, warnings := s.warnings + 1 } := by
  simp [step, h1, h2, trySend, h3]

/-- Witness for C4 at the state reached by closing the receiver right after
startup. -/
theorem C4_closed_channel_push_witness :
    step (run [Directive.closeReceiver]) (Directive.schedStep (.ok ⟨1, 2, 3⟩))
      = { run [Directive.closeReceiver] with
            sched := SchedPhase.sleeping,
            warnings := (run [Directive.closeReceiver]).warnings + 1 } :=
  C4_closed_channel_push (run [Directive.closeReceiver]) ⟨1, 2, 3⟩ rfl rfl rfl

/-- C6: the hand-off channel is created with capacity exactly 1 and is FIFO:
on every schedule the buffer never holds more than one snapshot and the
received snapshots followed by the buffered one are exactly the sent ones in
order; a push into a full channel with a live receiver suspends the scheduler
in the send — the snapshot is retained, nothing is dropped, and the sleep
phase is delayed — and the suspended send completes, preserving order, once
the publisher has drained the buffer. -/
theorem C6_handoff_channel :
    initialState.ch.capacity = 1 ∧
    (∀ ds, (run ds).ch.capacity = 1 ∧ (run ds).ch.buffer.length ≤ 1 ∧
       (run ds).received ++ (run ds).ch.buffer = (run ds).sent) ∧
    (∀ (s : SystemState) (r : TestResults), s.schedDone = false →
       s.sched = SchedPhase.idle → s.ch.receiverClosed = false →
       s.ch.capacity ≤ s.ch.buffer.length →
       step s (Directive.schedStep (.ok r))
         = { s with sched := SchedPhase.sending r }) ∧
    (∀ (s : SystemState) (r : TestResults) (cyc : Except ServiceError TestResults),
       s.schedDone = false → s.sched = SchedPhase.sending r →
       s.ch.receiverClosed = false → s.ch.buffer.length < s.ch.capacity →
       step s (Directive.schedStep cyc)
         = { s with ch := { s.ch with buffer := s.ch.buffer ++ [r] },
                    sent := s.sent ++ [r], sched := SchedPhase.sleeping }) := by
  refine ⟨rfl, fun ds => chanInv_run ds, ?_, ?_⟩
  · intro s r h1 h2 h3 h4
    have h5 : ¬ s.ch.buffer.length < s.ch.capacity := by omega
    simp [step, h1, h2, trySend, h3, h5]
  · intro s r cyc h1 h2 h3 h4
    simp [step, h1, h2, trySend, h3, h4]

/-- Witness for C6 at the state with one undrained snapshot buffered: the
next push leaves the scheduler suspended in the send, dropping nothing. -/
theorem C6_handoff_channel_witness :
    step (run c6schedule) (Directive.schedStep (.ok ⟨2, 2, 2⟩))
      = { run c6schedule with sched := SchedPhase.sending ⟨2, 2, 2⟩ } ∧
    (run c6schedule).ch.buffer.length ≤ 1 :=
  ⟨C6_handoff_channel.2.2.1 (run c6schedule) ⟨2, 2, 2⟩ rfl rfl rfl Nat.le.refl,
   (C6_handoff_channel.2.1 c6schedule).2.1⟩

/-- C8 counterexample: a snapshot is consumed and its state message is
published while not a single discovery message has been published and nothing
retained has ever been sent — there is no bootstrap phase in the publisher. -/
theorem C8_counterexample :
    (run c8schedule).received = [⟨100, 50, 10⟩] ∧
    (run c8schedule).published
      = [⟨"speedtest/results", false, Payload.stateText ⟨100, 50, 10⟩⟩] ∧
    (run c8schedule).published.all (fun m => !m.retain) = true :=
  ⟨rfl, rfl, rfl⟩

/-- C8 (amended): the publisher task of `main` publishes only unretained
state messages to the fixed topic `speedtest/results` and never publishes a
discovery descriptor, so no bootstrap phase precedes snapshot consumption;
the separate `publish_discovery_message` function — which `main` never
invokes — does publish, per call, only retained messages to each
descriptor's config topic, one per measurement kind in the order download,
upload, ping when the broker accepts them. -/
theorem C8_no_bootstrap :
    (∀ ds, ∀ m ∈ (run ds).published,
       m.topic = "speedtest/results" ∧ m.retain = false) ∧
    (∀ (broker : BrokerOracle) (topic : String) (retain : Bool)
       (name : String) (k : Nat),
       Ev.publishAttempt topic retain name k ∈ (publish_discovery_message broker).1 →
       topic = configTopic name ∧ retain = true) ∧
    (publish_discovery_message brokerAlwaysOk).1
      = [discAttempt downloadName 1, discAttempt uploadName 1, discAttempt pingName 1] := by
  refine ⟨fun ds => pubsStateOnly_run ds, ?_, rfl⟩
  intro broker topic retain name k hmem
  rw [publish_discovery_message_eq] at hmem
  by_cases hD : (publishDescriptorTrace broker downloadName).2 = true <;>
    by_cases hU : (publishDescriptorTrace broker uploadName).2 = true <;>
    by_cases hP : (publishDescriptorTrace broker pingName).2 = true <;>
    simp only [hD, hU, hP, if_true, if_false, Bool.not_eq_true, if_neg,
      List.append_nil, List.mem_append] at hmem <;>
    first
      | (rcases hmem with h | h | h
         · exact (publishDescriptorTrace_mem_shape broker downloadName
             topic retain name k h).imp id And.left
         · exact (publishDescriptorTrace_mem_shape broker uploadName
             topic retain name k h).imp id And.left
         · exact (publishDescriptorTrace_mem_shape broker pingName
             topic retain name k h).imp id And.left)
      | (rcases hmem with h | h
         · exact (publishDescriptorTrace_mem_shape broker downloadName
             topic retain name k h).imp id And.left
         · exact (publishDescriptorTrace_mem_shape broker uploadName
             topic retain name k h).imp id And.left)
      | exact (publishDescriptorTrace_mem_shape broker downloadName
          topic retain name k hmem).imp id And.left

/-- Witness for C8: the state message published in the concrete schedule is
to the fixed state topic and unretained. -/
theorem C8_no_bootstrap_witness :
    (⟨"speedtest/results", false, Payload.stateText ⟨100, 50, 10⟩⟩ : MqttPublish).topic
        = "speedtest/results" ∧
    (⟨"speedtest/results", false, Payload.stateText ⟨100, 50, 10⟩⟩ : MqttPublish).retain
        = false :=
  C8_no_bootstrap.1 c8schedule
    ⟨"speedtest/results", false, Payload.stateText ⟨100, 50, 10⟩⟩
    (List.mem_singleton.mpr rfl)

end Breitbandmessung
